import Mathlib

/-!
Verification of the `python-toonapi` client library (an asynchronous Python
client for the Quby Toon home-energy API) against its natural-language
specification.  The Python sources under `toonapi/` (`util.py`, `models.py`,
`toon.py`, `exceptions.py`) are shallowly embedded below:

* Python's dynamically typed values are modelled by the inductive `PyVal`
  (floats abstracted as exact rationals; `datetime` objects as seconds since
  epoch plus a microsecond component);
* fallible Python code (code that can raise `TypeError`/`ValueError`/
  `OverflowError`) is modelled in the `Except String` monad;
* the mutable record objects of `models.py` become immutable structures whose
  update methods return the updated record, with `datetime.now()` passed as an
  explicit parameter;
* object identity for the `Status` aggregate (needed because its record
  attributes are Python class-level attributes) is modelled by a small
  explicit heap of record cells addressed by naturals.
-/

deriving instance DecidableEq for Except

namespace ToonApi

/-- A `datetime` value: whole seconds since the Unix epoch (UTC, may be
negative) together with the microsecond component in `[0, 1000000)`. -/
structure DT where
  sec : ℤ
  micro : ℕ
deriving DecidableEq, Repr

/-- A dynamically typed Python value as it occurs in this library: `None`,
`int`, `float` (abstracted as an exact rational), `bool`, `str`, or a
`datetime` object. -/
inductive PyVal where
  | none : PyVal
  | int (z : ℤ) : PyVal
  | float (q : ℚ) : PyVal
  | bool (b : Bool) : PyVal
  | str (s : String) : PyVal
  | dt (d : DT) : PyVal
deriving DecidableEq, Repr

/-- Numeric view of a Python value: `int`, `float` and `bool` take part in
Python arithmetic (`True`/`False` count as `1`/`0`); other values do not. -/
def asNum : PyVal → Option ℚ
  | PyVal.int z => Option.some (z : ℚ)
  | PyVal.float q => Option.some q
  | PyVal.bool b => Option.some (if b then 1 else 0)
  | _ => Option.none

/-- Numeric view in the `Except` monad: non-numeric operands raise
`TypeError`, as Python arithmetic does. -/
def asNumE (v : PyVal) : Except String ℚ :=
  match asNum v with
  | Option.some q => Except.ok q
  | Option.none => Except.error "TypeError"

/-- Python truthiness, as computed by `bool(value)`. -/
def pyTruthy : PyVal → Bool
  | PyVal.none => false
  | PyVal.int z => decide (z ≠ 0)
  | PyVal.float q => decide (q ≠ 0)
  | PyVal.bool b => b
  | PyVal.str s => decide (s ≠ "")
  | PyVal.dt _ => true

/-- Floor of a rational, computed directly on the numerator and denominator
so that it evaluates inside the kernel. -/
def ratFloor (q : ℚ) : ℤ := Int.fdiv q.num (q.den : ℤ)

/-- Python's built-in `round` on an exact rational: round half to even
(banker's rounding), the semantics of `round(float)` in Python 3. -/
def pyRound (q : ℚ) : ℤ :=
  let f := ratFloor q
  if q - (f : ℚ) < 1 / 2 then f
  else if 1 / 2 < q - (f : ℚ) then f + 1
  else if f % 2 = 0 then f else f + 1

/-- Python's `round(x, 2)` on an exact rational (the binary floating point
representation of the source is abstracted to exact rational arithmetic). -/
def round2q (q : ℚ) : ℚ := (pyRound (q * 100) : ℚ) / 100

/-- Python's `round(x, 1)` on an exact rational. -/
def round1q (q : ℚ) : ℚ := (pyRound (q * 10) : ℚ) / 10

/-- Truncation toward zero, the semantics of Python's `int(float)`. -/
def ratTrunc (q : ℚ) : ℤ := Int.tdiv q.num (q.den : ℤ)

/-- Smallest seconds value accepted by `datetime.utcfromtimestamp`
(0001-01-01T00:00:00 UTC). -/
def MIN_TS_SEC : ℤ := -62135596800

/-- Largest seconds value accepted by `datetime.utcfromtimestamp`
(9999-12-31T23:59:59 UTC). -/
def MAX_TS_SEC : ℤ := 253402300799

/-! ### `util.py` — unit converters

Each converter takes one dynamically typed argument; a conversion that would
raise in Python returns `Except.error` here.  Note which converters guard
against `None` and which do not: `convert_negative_none` and
`convert_datetime` have no `None` guard in the source, and the comparison
`None < 0` (resp. `None // 1000.0`) raises `TypeError`. -/

/-- `convert_temperature`: `None` guard, then `temperature / 100.0`. -/
def convert_temperature (v : PyVal) : Except String PyVal :=
  if v = PyVal.none then Except.ok PyVal.none
  else
    match asNum v with
    | Option.some q => Except.ok (PyVal.float (q / 100))
    | Option.none => Except.error "TypeError"

/-- `convert_boolean`: `None` guard, then `bool(value)`. -/
def convert_boolean (v : PyVal) : Except String PyVal :=
  if v = PyVal.none then Except.ok PyVal.none
  else Except.ok (PyVal.bool (pyTruthy v))

/-- `convert_datetime`: no `None` guard.
`datetime.utcfromtimestamp(timestamp // 1000.0).replace(microsecond=timestamp % 1000 * 1000)`.
For every integer timestamp whose quotient `timestamp // 1000` lies in the
range accepted by `utcfromtimestamp` (|seconds| < 2^38, hence |timestamp| <
2^48 < 2^53), the float floor-division `timestamp // 1000.0` of the source is
exact — the conversion of `timestamp` to a double is exact below 2^53 and the
correctly rounded quotient is within half an ulp (< 1/2000) of the true
quotient, too close to cross an integer boundary — so it is embedded as exact
integer floor division (`Int.ediv`/`Int.emod`, which agree with Python's
`//`/`%` for a positive divisor).  Out-of-range timestamps raise
(`OverflowError`/`OSError`); non-integers raise `TypeError` (a float argument
reaches `.replace` with a float microsecond, which raises `TypeError`). -/
def convert_datetime (v : PyVal) : Except String PyVal :=
  match v with
  | PyVal.int t =>
      let s := Int.ediv t 1000
      if MIN_TS_SEC ≤ s ∧ s ≤ MAX_TS_SEC then
        Except.ok (PyVal.dt ⟨s, (Int.emod t 1000).toNat * 1000⟩)
      else Except.error "OverflowError"
  | PyVal.bool b => Except.ok (PyVal.dt ⟨0, if b then 1000 else 0⟩)
  | _ => Except.error "TypeError"

/-- `convert_kwh`: `None` guard, then `round(float(value) / 1000.0, 2)`
(numeric-string parsing of Python's `float(str)` is not modelled; the library
only feeds numeric wire values to this converter). -/
def convert_kwh (v : PyVal) : Except String PyVal :=
  if v = PyVal.none then Except.ok PyVal.none
  else
    match asNum v with
    | Option.some q => Except.ok (PyVal.float (round2q (q / 1000)))
    | Option.none => Except.error "TypeError"

/-- `convert_cm3`: `None` guard, then `round(float(value) / 1000.0, 2)`. -/
def convert_cm3 (v : PyVal) : Except String PyVal :=
  if v = PyVal.none then Except.ok PyVal.none
  else
    match asNum v with
    | Option.some q => Except.ok (PyVal.float (round2q (q / 1000)))
    | Option.none => Except.error "TypeError"

/-- `convert_negative_none`: **no** `None` guard; evaluates `value < 0`
first, which raises `TypeError` when `value` is `None` (or any non-numeric). -/
def convert_negative_none (v : PyVal) : Except String PyVal :=
  match v with
  | PyVal.int z => Except.ok (if z < 0 then PyVal.none else PyVal.int z)
  | PyVal.float q => Except.ok (if q < 0 then PyVal.none else PyVal.float q)
  | PyVal.bool b => Except.ok (PyVal.bool b)
  | _ => Except.error "TypeError"

/-- `convert_m3`: `None` guard, then `round(float(value) / 1000.0, 2)`. -/
def convert_m3 (v : PyVal) : Except String PyVal :=
  if v = PyVal.none then Except.ok PyVal.none
  else
    match asNum v with
    | Option.some q => Except.ok (PyVal.float (round2q (q / 1000)))
    | Option.none => Except.error "TypeError"

/-- `convert_lmin`: `None` guard, then `round(float(value) / 60.0, 1)`. -/
def convert_lmin (v : PyVal) : Except String PyVal :=
  if v = PyVal.none then Except.ok PyVal.none
  else
    match asNum v with
    | Option.some q => Except.ok (PyVal.float (round1q (q / 60)))
    | Option.none => Except.error "TypeError"

/-! ### `const.py` — enumeration constants

Modelled from the spec: the repository imports `const.py`, which is not among
the provided sources.  The spec (§4.2) describes these as "small integer
enumerations"; the exact values are not given, so representative distinct
small integers are chosen.  No theorem below depends on the particular
values. -/

/-- Modelled from the spec: active-state enumeration value for holiday mode
(`const.py` is missing from the sources). -/
def ACTIVE_STATE_HOLIDAY : ℤ := 4

/-- Modelled from the spec: active-state enumeration value for "off"
(`const.py` is missing from the sources). -/
def ACTIVE_STATE_OFF : ℤ := 5

/-- Modelled from the spec: program-state enumeration value for "override"
(`const.py` is missing from the sources). -/
def PROGRAM_STATE_OVERRIDE : ℤ := 2

/-- Modelled from the spec: program-state enumeration value for "on"
(`const.py` is missing from the sources). -/
def PROGRAM_STATE_ON : ℤ := 1

/-- Modelled from the spec: burner-state enumeration value for "on". -/
def BURNER_STATE_ON : ℤ := 1

/-- Modelled from the spec: burner-state enumeration value for tap water. -/
def BURNER_STATE_TAP_WATER : ℤ := 2

/-- Modelled from the spec: burner-state enumeration value for preheating. -/
def BURNER_STATE_PREHEATING : ℤ := 3

/-! ### `models.py` — `process_data` and the record objects

A JSON payload (Python `dict[str, Any]`) is embedded as a structure with one
field per wire key of type `Option PyVal`: `Option.none` means the key is
absent from the dict, `Option.some PyVal.none` means the key is present with
value `null`/`None`. -/

/-- `process_data(data, key, current_value, conversion)`: absent key or
`None` value keeps `current_value`; otherwise the conversion is applied
(`conversion=None` in the source is embedded as the identity conversion
`fun v => Except.ok v`). -/
def process_data (w : Option PyVal) (current : PyVal)
    (conversion : PyVal → Except String PyVal) : Except String PyVal :=
  match w with
  | Option.none => Except.ok current
  | Option.some v =>
      if v = PyVal.none then Except.ok current else conversion v

/-- The identity conversion: embeds the `conversion is None` branch of
`process_data`. -/
def pyId (v : PyVal) : Except String PyVal := Except.ok v

/-- Python's `int(...)` used as the conversion for `burnerInfo`. -/
def pyIntConv (v : PyVal) : Except String PyVal :=
  match v with
  | PyVal.int z => Except.ok (PyVal.int z)
  | PyVal.bool b => Except.ok (PyVal.int (if b then 1 else 0))
  | PyVal.float q => Except.ok (PyVal.int (ratTrunc q))
  | _ => Except.error "TypeError"

/-- Python's one-argument `round` used as a conversion in `PowerUsage`. -/
def pyRoundConv (v : PyVal) : Except String PyVal :=
  match v with
  | PyVal.int z => Except.ok (PyVal.int z)
  | PyVal.bool b => Except.ok (PyVal.int (if b then 1 else 0))
  | PyVal.float q => Except.ok (PyVal.int (pyRound q))
  | _ => Except.error "TypeError"

/-- The `lambda x: x != 255` conversion for `errorFound` (Python `!=` never
raises; a non-numeric value compares unequal to `255`). -/
def errorFoundConv (v : PyVal) : Except String PyVal :=
  Except.ok (PyVal.bool (match asNum v with
    | Option.some q => decide (q ≠ 255)
    | Option.none => true))

/-- The `lambda x: x == ACTIVE_STATE_HOLIDAY` conversion for the
`holiday_mode` field. -/
def holidayConv (v : PyVal) : Except String PyVal :=
  Except.ok (PyVal.bool (match asNum v with
    | Option.some q => decide (q = (ACTIVE_STATE_HOLIDAY : ℚ))
    | Option.none => false))

/-- Wire payload for `ThermostatInfo.update_from_dict`: one slot per
recognized key of the `thermostatInfo` JSON section. -/
structure ThermoPayload where
  activeState : Option PyVal
  boilerModuleConnected : Option PyVal
  burnerInfo : Option PyVal
  currentDisplayTemp : Option PyVal
  currentHumidity : Option PyVal
  currentModulationLevel : Option PyVal
  currentSetpoint : Option PyVal
  errorFound : Option PyVal
  hasBoilerFault : Option PyVal
  haveOTBoiler : Option PyVal
  nextProgram : Option PyVal
  nextSetpoint : Option PyVal
  nextState : Option PyVal
  nextTime : Option PyVal
  otCommError : Option PyVal
  programState : Option PyVal
  realSetpoint : Option PyVal
  setByLoadShifting : Option PyVal
  lastUpdatedFromDisplay : Option PyVal
deriving DecidableEq, Repr

/-- The empty payload `{}`: every key absent. -/
def emptyThermoPayload : ThermoPayload :=
  ⟨Option.none, Option.none, Option.none, Option.none, Option.none,
   Option.none, Option.none, Option.none, Option.none, Option.none,
   Option.none, Option.none, Option.none, Option.none, Option.none,
   Option.none, Option.none, Option.none, Option.none⟩

/-- The `ThermostatInfo` record.  Fields are dynamically typed (`PyVal`)
exactly as in Python, which is what lets the source assign the integer
`next_state` value into the `next_time` slot. -/
structure ThermostatInfo where
  active_state : PyVal
  boiler_module_connected : PyVal
  burner_state : PyVal
  current_display_temperature : PyVal
  current_humidity : PyVal
  current_modulation_level : PyVal
  current_setpoint : PyVal
  error_found : PyVal
  has_boiler_fault : PyVal
  have_opentherm_boiler : PyVal
  holiday_mode : PyVal
  next_program : PyVal
  next_setpoint : PyVal
  next_state : PyVal
  next_time : PyVal
  opentherm_communication_error : PyVal
  program_state : PyVal
  real_setpoint : PyVal
  set_by_load_shifthing : PyVal
  last_updated_from_display : PyVal
  last_updated : PyVal
deriving DecidableEq, Repr

/-- A freshly constructed `ThermostatInfo()`: every field defaults to `None`
except `last_updated`, whose dataclass default is the wall-clock time `t0`
captured once when `models.py` was imported. -/
def mkThermostatInfo (t0 : DT) : ThermostatInfo :=
  ⟨PyVal.none, PyVal.none, PyVal.none, PyVal.none, PyVal.none, PyVal.none,
   PyVal.none, PyVal.none, PyVal.none, PyVal.none, PyVal.none, PyVal.none,
   PyVal.none, PyVal.none, PyVal.none, PyVal.none, PyVal.none, PyVal.none,
   PyVal.none, PyVal.none, PyVal.dt t0⟩

/-- `ThermostatInfo.update_from_dict`, assignment for assignment in source
order.  Python executes the assignments sequentially on the mutable object,
so a `process_data` call whose `current_value` argument reads a field that an
earlier line already assigned sees the *new* value; the embedding binds each
new field value and threads it accordingly.  Note the `nextTime` line: the
source passes `self.next_state` — not `self.next_time` — as the value to keep
(models.py line 198), and `next_state` has been reassigned two lines
earlier.  `datetime.now()` is the explicit parameter `now`. -/
def ThermostatInfo.update_from_dict (t : ThermostatInfo) (data : ThermoPayload)
    (now : DT) : Except String ThermostatInfo := do
  let active_state ← process_data data.activeState t.active_state convert_negative_none
  let boiler_module_connected ← process_data data.boilerModuleConnected t.boiler_module_connected convert_boolean
  let burner_state ← process_data data.burnerInfo t.burner_state pyIntConv
  let current_display_temperature ← process_data data.currentDisplayTemp t.current_display_temperature convert_temperature
  let current_humidity ← process_data data.currentHumidity t.current_humidity pyId
  let current_modulation_level ← process_data data.currentModulationLevel t.current_modulation_level pyId
  let current_setpoint ← process_data data.currentSetpoint t.current_setpoint convert_temperature
  let error_found ← process_data data.errorFound t.error_found errorFoundConv
  let has_boiler_fault ← process_data data.hasBoilerFault t.has_boiler_fault convert_boolean
  let have_opentherm_boiler ← process_data data.haveOTBoiler t.have_opentherm_boiler convert_boolean
  let holiday_mode ← process_data data.activeState t.holiday_mode holidayConv
  let next_program ← process_data data.nextProgram t.next_program convert_negative_none
  let next_setpoint ← process_data data.nextSetpoint t.next_setpoint convert_temperature
  let next_state ← process_data data.nextState t.next_state convert_negative_none
  let next_time ← process_data data.nextTime next_state convert_datetime
  let opentherm_communication_error ← process_data data.otCommError t.opentherm_communication_error convert_boolean
  let program_state ← process_data data.programState t.program_state pyId
  let real_setpoint ← process_data data.realSetpoint t.real_setpoint convert_temperature
  let set_by_load_shifthing ← process_data data.setByLoadShifting t.set_by_load_shifthing convert_boolean
  let last_updated_from_display ← process_data data.lastUpdatedFromDisplay t.last_updated_from_display convert_datetime
  Except.ok
    ⟨active_state, boiler_module_connected, burner_state,
     current_display_temperature, current_humidity, current_modulation_level,
     current_setpoint, error_found, has_boiler_fault, have_opentherm_boiler,
     holiday_mode, next_program, next_setpoint, next_state, next_time,
     opentherm_communication_error, program_state, real_setpoint,
     set_by_load_shifthing, last_updated_from_display, PyVal.dt now⟩

/-! Python arithmetic on dynamic values, as used by the derived properties of
`PowerUsage`: binary `+`/`-` promote to `float` when either operand is a
`float`, `min`, `abs`, and two-argument `round(x, 2)`. -/

/-- Python `+` on numbers (`int + int = int`, otherwise `float`; `bool`
behaves as `int`). -/
def pyAdd (a b : PyVal) : Except String PyVal :=
  match a, b with
  | PyVal.float x, _ => do let y ← asNumE b; Except.ok (PyVal.float (x + y))
  | _, PyVal.float y => do let x ← asNumE a; Except.ok (PyVal.float (x + y))
  | _, _ => do
      let x ← asNumE a
      let y ← asNumE b
      Except.ok (PyVal.int (x.num + y.num))

/-- Python `-` on numbers. -/
def pySub (a b : PyVal) : Except String PyVal :=
  match a, b with
  | PyVal.float x, _ => do let y ← asNumE b; Except.ok (PyVal.float (x - y))
  | _, PyVal.float y => do let x ← asNumE a; Except.ok (PyVal.float (x - y))
  | _, _ => do
      let x ← asNumE a
      let y ← asNumE b
      Except.ok (PyVal.int (x.num - y.num))

/-- Python `min(a, b)`: returns `b` exactly when `b < a` (the first argument
on ties). -/
def pyMin (a b : PyVal) : Except String PyVal := do
  let x ← asNumE a
  let y ← asNumE b
  Except.ok (if y < x then b else a)

/-- Python `abs` on a number. -/
def pyAbs (v : PyVal) : Except String PyVal :=
  match v with
  | PyVal.int z => Except.ok (PyVal.int |z|)
  | PyVal.float q => Except.ok (PyVal.float |q|)
  | PyVal.bool b => Except.ok (PyVal.int (if b then 1 else 0))
  | _ => Except.error "TypeError"

/-- Python `round(x, 2)` as a dynamic operation: an `int` is returned
unchanged, a `float` is rounded to two decimals. -/
def pyRound2 (v : PyVal) : Except String PyVal :=
  match v with
  | PyVal.int z => Except.ok (PyVal.int z)
  | PyVal.float q => Except.ok (PyVal.float (round2q q))
  | PyVal.bool b => Except.ok (PyVal.int (if b then 1 else 0))
  | _ => Except.error "TypeError"

/-- Wire payload for `PowerUsage.update_from_dict`. -/
structure PowerPayload where
  avgValue : Option PyVal
  avgProduValue : Option PyVal
  avgSolarValue : Option PyVal
  value : Option PyVal
  valueProduced : Option PyVal
  valueSolar : Option PyVal
  avgDayValue : Option PyVal
  dayCost : Option PyVal
  dayUsage : Option PyVal
  dayLowUsage : Option PyVal
  maxSolar : Option PyVal
  solarProducedToday : Option PyVal
  isSmart : Option PyVal
  meterReading : Option PyVal
  meterReadingLow : Option PyVal
  meterReadingProdu : Option PyVal
  meterReadingLowProdu : Option PyVal
  lastUpdatedFromDisplay : Option PyVal
deriving DecidableEq, Repr

/-- The empty payload `{}` for `PowerUsage`. -/
def emptyPowerPayload : PowerPayload :=
  ⟨Option.none, Option.none, Option.none, Option.none, Option.none,
   Option.none, Option.none, Option.none, Option.none, Option.none,
   Option.none, Option.none, Option.none, Option.none, Option.none,
   Option.none, Option.none, Option.none⟩

/-- The `PowerUsage` record. -/
structure PowerUsage where
  average_produced : PyVal
  average_solar : PyVal
  average : PyVal
  current_produced : PyVal
  current_solar : PyVal
  current : PyVal
  day_average : PyVal
  day_cost : PyVal
  day_high_usage : PyVal
  day_low_usage : PyVal
  day_max_solar : PyVal
  day_produced_solar : PyVal
  is_smart : PyVal
  meter_high : PyVal
  meter_low : PyVal
  meter_produced_high : PyVal
  meter_produced_low : PyVal
  last_updated_from_display : PyVal
  last_updated : PyVal
deriving DecidableEq, Repr

/-- A freshly constructed `PowerUsage()` (dataclass defaults: all `None`,
`last_updated` = import-time wall clock `t0`). -/
def mkPowerUsage (t0 : DT) : PowerUsage :=
  ⟨PyVal.none, PyVal.none, PyVal.none, PyVal.none, PyVal.none, PyVal.none,
   PyVal.none, PyVal.none, PyVal.none, PyVal.none, PyVal.none, PyVal.none,
   PyVal.none, PyVal.none, PyVal.none, PyVal.none, PyVal.none, PyVal.none,
   PyVal.dt t0⟩

/-- `PowerUsage.day_usage` property:
`None` if either tariff register is `None`, else
`round(day_high_usage + day_low_usage, 2)`. -/
def PowerUsage.day_usage (p : PowerUsage) : Except String PyVal :=
  if p.day_high_usage = PyVal.none ∨ p.day_low_usage = PyVal.none then
    Except.ok PyVal.none
  else do
    let s ← pyAdd p.day_high_usage p.day_low_usage
    pyRound2 s

/-- `PowerUsage.day_to_grid_usage` property:
`None` if `day_usage` or `day_produced_solar` is `None`, else
`abs(min(0.0, round(day_usage - day_produced_solar, 2)))`. -/
def PowerUsage.day_to_grid_usage (p : PowerUsage) : Except String PyVal := do
  let du ← p.day_usage
  if du = PyVal.none ∨ p.day_produced_solar = PyVal.none then
    Except.ok PyVal.none
  else do
    let diff ← pySub du p.day_produced_solar
    let r ← pyRound2 diff
    let m ← pyMin (PyVal.float 0) r
    pyAbs m

/-- `PowerUsage.day_from_grid_usage` property:
`abs(min(0.0, round(day_produced_solar - day_usage, 2)))` under the same
`None` guard. -/
def PowerUsage.day_from_grid_usage (p : PowerUsage) : Except String PyVal := do
  let du ← p.day_usage
  if p.day_produced_solar = PyVal.none ∨ du = PyVal.none then
    Except.ok PyVal.none
  else do
    let diff ← pySub p.day_produced_solar du
    let r ← pyRound2 diff
    let m ← pyMin (PyVal.float 0) r
    pyAbs m

/-- `PowerUsage.update_from_dict`, assignment for assignment in source order.
Note the `meterReadingProdu` line: the source passes `self.meter_high` — not
`self.meter_produced_high` — as the value to keep (models.py line 309), and
`meter_high` has been reassigned a few lines earlier. -/
def PowerUsage.update_from_dict (p : PowerUsage) (data : PowerPayload)
    (now : DT) : Except String PowerUsage := do
  let average ← process_data data.avgValue p.average pyId
  let average_produced ← process_data data.avgProduValue p.average_produced pyId
  let average_solar ← process_data data.avgSolarValue p.average_solar pyId
  let current ← process_data data.value p.current pyRoundConv
  let current_produced ← process_data data.valueProduced p.current_produced pyRoundConv
  let current_solar ← process_data data.valueSolar p.current_solar pyRoundConv
  let day_average ← process_data data.avgDayValue p.day_average convert_kwh
  let day_cost ← process_data data.dayCost p.day_cost pyId
  let day_high_usage ← process_data data.dayUsage p.day_high_usage convert_kwh
  let day_low_usage ← process_data data.dayLowUsage p.day_low_usage convert_kwh
  let day_max_solar ← process_data data.maxSolar p.day_max_solar pyId
  let day_produced_solar ← process_data data.solarProducedToday p.day_produced_solar convert_kwh
  let is_smart ← process_data data.isSmart p.is_smart convert_boolean
  let meter_high ← process_data data.meterReading p.meter_high convert_kwh
  let meter_low ← process_data data.meterReadingLow p.meter_low convert_kwh
  let meter_produced_high ← process_data data.meterReadingProdu meter_high convert_kwh
  let meter_produced_low ← process_data data.meterReadingLowProdu p.meter_produced_low convert_kwh
  let last_updated_from_display ← process_data data.lastUpdatedFromDisplay p.last_updated_from_display convert_datetime
  Except.ok
    ⟨average_produced, average_solar, average, current_produced, current_solar,
     current, day_average, day_cost, day_high_usage, day_low_usage,
     day_max_solar, day_produced_solar, is_smart, meter_high, meter_low,
     meter_produced_high, meter_produced_low, last_updated_from_display,
     PyVal.dt now⟩

/-- Wire payload for `GasUsage.update_from_dict`. -/
structure GasPayload where
  avgValue : Option PyVal
  value : Option PyVal
  avgDayValue : Option PyVal
  dayCost : Option PyVal
  dayUsage : Option PyVal
  isSmart : Option PyVal
  meterReading : Option PyVal
  lastUpdatedFromDisplay : Option PyVal
deriving DecidableEq, Repr

/-- The empty payload `{}` for `GasUsage`. -/
def emptyGasPayload : GasPayload :=
  ⟨Option.none, Option.none, Option.none, Option.none, Option.none,
   Option.none, Option.none, Option.none⟩

/-- The `GasUsage` record.  Besides the declared dataclass fields it carries
a slot `last_update : Option DT` modelling the *undeclared* attribute that
the final line of `update_from_dict` creates: the source assigns
`self.last_update` (models.py line 357) — a typo for `self.last_updated` —
so a new attribute appears on first update (`Option.none` = attribute does
not exist yet). -/
structure GasUsage where
  average : PyVal
  current : PyVal
  day_average : PyVal
  day_cost : PyVal
  day_usage : PyVal
  is_smart : PyVal
  meter : PyVal
  last_updated_from_display : PyVal
  last_updated : PyVal
  last_update : Option DT
deriving DecidableEq, Repr

/-- A freshly constructed `GasUsage()` (dataclass defaults: all `None`,
`last_updated` = import-time wall clock `t0`, no `last_update` attribute). -/
def mkGasUsage (t0 : DT) : GasUsage :=
  ⟨PyVal.none, PyVal.none, PyVal.none, PyVal.none, PyVal.none, PyVal.none,
   PyVal.none, PyVal.none, PyVal.dt t0, Option.none⟩

/-- `GasUsage.update_from_dict`, assignment for assignment in source order.
The final line sets the attribute `last_update` — not `last_updated`, which
keeps its previous value. -/
def GasUsage.update_from_dict (g : GasUsage) (data : GasPayload)
    (now : DT) : Except String GasUsage := do
  let average ← process_data data.avgValue g.average convert_cm3
  let current ← process_data data.value g.current convert_cm3
  let day_average ← process_data data.avgDayValue g.day_average convert_cm3
  let day_cost ← process_data data.dayCost g.day_cost pyId
  let day_usage ← process_data data.dayUsage g.day_usage convert_cm3
  let is_smart ← process_data data.isSmart g.is_smart convert_boolean
  let meter ← process_data data.meterReading g.meter convert_cm3
  let last_updated_from_display ← process_data data.lastUpdatedFromDisplay g.last_updated_from_display convert_datetime
  Except.ok
    ⟨average, current, day_average, day_cost, day_usage, is_smart, meter,
     last_updated_from_display, g.last_updated, Option.some now⟩

/-- Wire payload for `WaterUsage.update_from_dict`. -/
structure WaterPayload where
  avgValue : Option PyVal
  value : Option PyVal
  avgDayValue : Option PyVal
  dayCost : Option PyVal
  dayUsage : Option PyVal
  installed : Option PyVal
  isSmart : Option PyVal
  meterReading : Option PyVal
  lastUpdatedFromDisplay : Option PyVal
deriving DecidableEq, Repr

/-- The empty payload `{}` for `WaterUsage`. -/
def emptyWaterPayload : WaterPayload :=
  ⟨Option.none, Option.none, Option.none, Option.none, Option.none,
   Option.none, Option.none, Option.none, Option.none⟩

/-- The `WaterUsage` record.  In the source `last_updated` lacks a type
annotation (models.py line 374), so it is a class-level attribute set once
at import time rather than a dataclass field; it is embedded as a field holding
that import-time value.  Like `GasUsage`, the update method's final line
assigns the undeclared attribute `last_update` (models.py line 396). -/
structure WaterUsage where
  average : PyVal
  current : PyVal
  day_average : PyVal
  day_cost : PyVal
  day_usage : PyVal
  installed : PyVal
  is_smart : PyVal
  meter : PyVal
  last_updated_from_display : PyVal
  last_updated : PyVal
  last_update : Option DT
deriving DecidableEq, Repr

/-- A freshly constructed `WaterUsage()` (all `None`; `last_updated` reads
through to the class attribute holding the import-time wall clock `t0`). -/
def mkWaterUsage (t0 : DT) : WaterUsage :=
  ⟨PyVal.none, PyVal.none, PyVal.none, PyVal.none, PyVal.none, PyVal.none,
   PyVal.none, PyVal.none, PyVal.none, PyVal.dt t0, Option.none⟩

/-- `WaterUsage.update_from_dict`, assignment for assignment in source order.
As in `GasUsage`, the final line sets `last_update`, not `last_updated`. -/
def WaterUsage.update_from_dict (w : WaterUsage) (data : WaterPayload)
    (now : DT) : Except String WaterUsage := do
  let average ← process_data data.avgValue w.average convert_lmin
  let current ← process_data data.value w.current convert_lmin
  let day_average ← process_data data.avgDayValue w.day_average convert_m3
  let day_cost ← process_data data.dayCost w.day_cost pyId
  let day_usage ← process_data data.dayUsage w.day_usage convert_m3
  let installed ← process_data data.installed w.installed convert_boolean
  let is_smart ← process_data data.isSmart w.is_smart convert_boolean
  let meter ← process_data data.meterReading w.meter convert_m3
  let last_updated_from_display ← process_data data.lastUpdatedFromDisplay w.last_updated_from_display convert_datetime
  Except.ok
    ⟨average, current, day_average, day_cost, day_usage, installed, is_smart,
     meter, last_updated_from_display, w.last_updated, Option.some now⟩

/-- The `Agreement` dataclass: an immutable value object; equality is
field-by-field (dataclass `__eq__`). -/
structure Agreement where
  agreement_id_checksum : Option String
  agreement_id : Option String
  city : Option String
  display_common_name : Option String
  display_hardware_version : Option String
  display_software_version : Option String
  heating_type : Option String
  house_number : Option String
  is_toon_solar : Option Bool
  is_toonly : Option Bool
  postal_code : Option String
  street : Option String
deriving DecidableEq, Repr

/-- An `Agreement` with every field `None` (all keys absent in
`Agreement.from_dict`). -/
def emptyAgreement : Agreement :=
  ⟨Option.none, Option.none, Option.none, Option.none, Option.none,
   Option.none, Option.none, Option.none, Option.none, Option.none,
   Option.none, Option.none⟩

/-! ### `exceptions.py` — exception taxonomy

`ToonError` is the base class; `ToonConnectionError` derives from it;
`ToonConnectionTimeoutError` and `ToonRateLimitError` both derive from
`ToonConnectionError`.  An exception instance is one of the constructors
below; `isinstance` checks against each class are the predicates that
follow. -/

/-- A raised exception of the library's taxonomy, carrying its message (for
the two-argument `ToonError(status, body)` raised by response
classification, the constructor `apiError`). -/
inductive ToonExc where
  | toonError (msg : String) : ToonExc
  | apiError (status : ℕ) (body : String) : ToonExc
  | connectionError (msg : String) : ToonExc
  | connectionTimeoutError (msg : String) : ToonExc
  | rateLimitError (msg : String) : ToonExc
deriving DecidableEq, Repr

/-- `isinstance(e, ToonError)`: every exception of the taxonomy is a
`ToonError`. -/
def isToonError : ToonExc → Bool := fun _ => true

/-- `isinstance(e, ToonConnectionError)`: `ToonConnectionError` and its
subclasses `ToonConnectionTimeoutError` and `ToonRateLimitError`. -/
def isToonConnectionError : ToonExc → Bool
  | ToonExc.connectionError _ => true
  | ToonExc.connectionTimeoutError _ => true
  | ToonExc.rateLimitError _ => true
  | _ => false

/-- `isinstance(e, ToonRateLimitError)`. -/
def isToonRateLimitError : ToonExc → Bool
  | ToonExc.rateLimitError _ => true
  | _ => false

/-! ### `models.py` — the `Status` aggregate

`Status` is a plain class (not a dataclass) whose attributes `thermostat`,
`power_usage`, `gas_usage` and `water_usage` are *class-level* attributes,
each initialized once — with a single record object — when `models.py` gets
imported.  `__init__` assigns only `self.agreement`, so attribute lookup on
any instance falls through to the class object for the four records.  Object
identity is modelled with a heap of record cells addressed by naturals; the
four class-level record objects live at the fixed addresses 0–3. -/

/-- Address of the class-level `ThermostatInfo()` created at import time. -/
def statusClassThermostatAddr : ℕ := 0

/-- Address of the class-level `PowerUsage()` created at import time. -/
def statusClassPowerAddr : ℕ := 1

/-- Address of the class-level `GasUsage()` created at import time. -/
def statusClassGasAddr : ℕ := 2

/-- Address of the class-level `WaterUsage()` created at import time. -/
def statusClassWaterAddr : ℕ := 3

/-- A `Status` object: its own `agreement` (set by `__init__`) plus the
addresses at which its four record attributes resolve. -/
structure Status where
  agreement : Agreement
  thermostat_ref : ℕ
  power_usage_ref : ℕ
  gas_usage_ref : ℕ
  water_usage_ref : ℕ
deriving DecidableEq, Repr

/-- `Status(agreement=a)`: `__init__` stores only the agreement; the record
attributes are not per-instance, they resolve to the class-level objects. -/
def Status.make (a : Agreement) : Status :=
  ⟨a, statusClassThermostatAddr, statusClassPowerAddr, statusClassGasAddr,
   statusClassWaterAddr⟩

/-- The heap of record objects. -/
structure Heap where
  thermo : ℕ → ThermostatInfo
  power : ℕ → PowerUsage
  gas : ℕ → GasUsage
  water : ℕ → WaterUsage

/-- The heap as it stands right after `models.py` is imported at wall-clock
time `t0`: every thermostat cell holds the freshly constructed record (only
the cells at the class-attribute addresses are ever used). -/
def importHeap (t0 : DT) : Heap :=
  ⟨fun _ => mkThermostatInfo t0, fun _ => mkPowerUsage t0,
   fun _ => mkGasUsage t0, fun _ => mkWaterUsage t0⟩

/-- Dereference the `thermostat` attribute of a `Status`. -/
def readThermostat (h : Heap) (s : Status) : ThermostatInfo :=
  h.thermo s.thermostat_ref

/-- `status.thermostat.update_from_dict(data)`: mutate, through `status`'s
reference, the thermostat record cell it points to. -/
def updateThermostatVia (h : Heap) (s : Status) (data : ThermoPayload)
    (now : DT) : Except String Heap := do
  let r ← (h.thermo s.thermostat_ref).update_from_dict data now
  Except.ok
    ⟨fun n => if n = s.thermostat_ref then r else h.thermo n,
     h.power, h.gas, h.water⟩

/-- Wire payload for `Status.update_from_dict`: the four optional record
sections plus the two aggregate-level timestamp keys. -/
structure StatusPayload where
  thermostatInfo : Option ThermoPayload
  powerUsage : Option PowerPayload
  gasUsage : Option GasPayload
  waterUsage : Option WaterPayload
  lastUpdateFromDisplay : Option PyVal
  serverTime : Option PyVal

/-- The empty payload `{}` for `Status`. -/
def emptyStatusPayload : StatusPayload :=
  ⟨Option.none, Option.none, Option.none, Option.none, Option.none,
   Option.none⟩

/-- The aggregate-level attributes of a `Status` object (its class-level
defaults are `None`, `None`, and the import-time wall clock). -/
structure StatusFields where
  last_updated_from_display : PyVal
  server_time : PyVal
  last_updated : PyVal
deriving DecidableEq, Repr

/-- The aggregate-level attributes as a fresh `Status` reads them (class
defaults from import time `t0`). -/
def mkStatusFields (t0 : DT) : StatusFields :=
  ⟨PyVal.none, PyVal.none, PyVal.dt t0⟩

/-- `Status.update_from_dict` (models.py lines 416–434): each record section,
when present, is dispatched to that record's update method (mutating the
record cell the `Status` references; the wall clock is the explicit `now`
parameter for all of them).  Then — unlike the record updates, which route
every key through the `process_data` null guard — a present
`lastUpdateFromDisplay` or `serverTime` key has `convert_datetime` applied
**directly** to its value, with no null check, so a present-but-null value
there raises.  Finally `last_updated` is set to the current time. -/
def Status.update_from_dict (h : Heap) (s : Status) (fields : StatusFields)
    (data : StatusPayload) (now : DT) : Except String (Heap × StatusFields) := do
  let h ←
    match data.thermostatInfo with
    | Option.some d => do
        let r ← (h.thermo s.thermostat_ref).update_from_dict d now
        Except.ok { h with thermo := fun n => if n = s.thermostat_ref then r else h.thermo n }
    | Option.none => Except.ok h
  let h ←
    match data.powerUsage with
    | Option.some d => do
        let r ← (h.power s.power_usage_ref).update_from_dict d now
        Except.ok { h with power := fun n => if n = s.power_usage_ref then r else h.power n }
    | Option.none => Except.ok h
  let h ←
    match data.gasUsage with
    | Option.some d => do
        let r ← (h.gas s.gas_usage_ref).update_from_dict d now
        Except.ok { h with gas := fun n => if n = s.gas_usage_ref then r else h.gas n }
    | Option.none => Except.ok h
  let h ←
    match data.waterUsage with
    | Option.some d => do
        let r ← (h.water s.water_usage_ref).update_from_dict d now
        Except.ok { h with water := fun n => if n = s.water_usage_ref then r else h.water n }
    | Option.none => Except.ok h
  let last_updated_from_display ←
    match data.lastUpdateFromDisplay with
    | Option.some v => convert_datetime v
    | Option.none => Except.ok fields.last_updated_from_display
  let server_time ←
    match data.serverTime with
    | Option.some v => convert_datetime v
    | Option.none => Except.ok fields.server_time
  Except.ok (h, ⟨last_updated_from_display, server_time, PyVal.dt now⟩)

/-! ### `toon.py` — agreement activation -/

/-- The matching test of the `activate_agreement` loop for one cached
agreement `k` against the three optional criteria:
`k == agreement or k.agreement_id == agreement_id or
k.display_common_name == display_common_name`.  A dataclass compared with
`None` is unequal; but an `Option String` field compared with a `None`
criterion is equal exactly when the field itself is `None`. -/
def agreementMatches (k : Agreement) (agreement_id : Option String)
    (display_common_name : Option String) (agreement : Option Agreement) :
    Bool :=
  (match agreement with
   | Option.some a => decide (k = a)
   | Option.none => false)
  || decide (k.agreement_id = agreement_id)
  || decide (k.display_common_name = display_common_name)

/-- Result of a successful activation: the matched agreement, the fresh
`Status` bound to it, and the recorded active agreement id and display
name. -/
structure ActivationResult where
  matched : Agreement
  status : Status
  active_agreement_id : Option String
  active_display_common_name : Option String
deriving DecidableEq, Repr

/-- `Toon.activate_agreement`, from the point where the agreements list is
known (the preceding `await self.agreements()` fetch is a network effect
outside this embedding): an empty list raises
`ToonError("No agreements found on linked account")`; otherwise the first
cached agreement matching any of the three criteria yields a fresh `Status`
and records its id and display name; no match raises
`ToonError("Agreement could not be found on the linked account")`. -/
def activate_agreement (agreements : List Agreement)
    (agreement_id : Option String) (display_common_name : Option String)
    (agreement : Option Agreement) : Except ToonExc ActivationResult :=
  if agreements.isEmpty then
    Except.error (ToonExc.toonError "No agreements found on linked account")
  else
    match agreements.find? (fun k => agreementMatches k agreement_id display_common_name agreement) with
    | Option.some k =>
        Except.ok ⟨k, Status.make k, k.agreement_id, k.display_common_name⟩
    | Option.none =>
        Except.error
          (ToonExc.toonError "Agreement could not be found on the linked account")

/-! ### `toon.py` — response classification and the backoff decorators -/

/-- Classification of an HTTP response status by `_request` (toon.py lines
125–136): statuses in the 400s/500s are failures, with 429 raised as
`ToonRateLimitError` and the rest as the two-argument `ToonError` carrying
status and body; other statuses succeed. -/
def classify_response (status : ℕ) (body : String) : Except ToonExc String :=
  if status / 100 = 4 ∨ status / 100 = 5 then
    if status = 429 then
      Except.error
        (ToonExc.rateLimitError "Rate limit error has occurred with the Quby ToonAPI")
    else Except.error (ToonExc.apiError status body)
  else Except.ok body

/-- A `backoff.on_exception` retry policy: the exception class filter
(`isinstance` predicate), the attempt cap `max_tries`, and the `base` of the
`backoff.expo` delay generator (delay before the n-th retry is
`base ^ (n-1)`; delays do not affect the values computed and are carried for
documentation of the policy parameters). -/
structure Policy where
  handles : ToonExc → Bool
  max_tries : ℕ
  base : ℕ

/-- The outer decorator of `_request` (toon.py line 65):
`backoff.on_exception(backoff.expo, ToonConnectionError, max_tries=3)`. -/
def connectionPolicy : Policy := ⟨isToonConnectionError, 3, 2⟩

/-- The inner decorator of `_request` (toon.py lines 66–68):
`backoff.on_exception(backoff.expo, ToonRateLimitError, base=60, max_tries=6)`. -/
def rateLimitPolicy : Policy := ⟨isToonRateLimitError, 6, 60⟩

/-- A callable under test: given the index of the next underlying invocation
it returns an outcome and the new index (so the second component counts the
underlying `_request` bodies actually executed). -/
def Proc (α : Type) : Type := ℕ → Except ToonExc α × ℕ

/-- One `backoff.on_exception` wrapper with `fuel` remaining attempts:
run the target; on success return; on an exception of the handled class with
attempts remaining, retry; otherwise re-raise. -/
def retryAux (handles : ToonExc → Bool) (f : Proc α) : ℕ → Proc α
  | 0, n => f n
  | Nat.succ fuel, n =>
      match f n with
      | (Except.ok a, m) => (Except.ok a, m)
      | (Except.error e, m) =>
          if handles e ∧ fuel ≠ 0 then retryAux handles f fuel m
          else (Except.error e, m)

/-- `backoff.on_exception(backoff.expo, cls, max_tries=k, ...)` applied to a
callable: at most `p.max_tries` total attempts. -/
def retryPolicy (p : Policy) (f : Proc α) : Proc α :=
  retryAux p.handles f p.max_tries

/-- The raw `_request` body as a stream of outcomes: the n-th underlying
invocation yields `outcomes n`. -/
def rawRequest (outcomes : ℕ → Except ToonExc α) : Proc α :=
  fun n => (outcomes n, n + 1)

/-- `_request` as decorated in the source: the rate-limit policy is the
inner wrapper, the connection policy the outer one (decorators apply
bottom-up).  Returns the final outcome and the number of underlying
invocations executed. -/
def requestWithRetries (outcomes : ℕ → Except ToonExc α) :
    Except ToonExc α × ℕ :=
  retryPolicy connectionPolicy (retryPolicy rateLimitPolicy (rawRequest outcomes)) 0

/-! ### `toon.py` — optimistic setpoint update -/

/-- The payload built by `Toon.set_current_setpoint(temperature)`:
`{"currentSetpoint": round(temperature * 100), "programState":
PROGRAM_STATE_OVERRIDE, "activeState": ACTIVE_STATE_OFF}`. -/
def setpointPayload (temperature : ℚ) : ThermoPayload :=
  { emptyThermoPayload with
    currentSetpoint := Option.some (PyVal.int (pyRound (temperature * 100))),
    programState := Option.some (PyVal.int PROGRAM_STATE_OVERRIDE),
    activeState := Option.some (PyVal.int ACTIVE_STATE_OFF) }

/-- `Toon.set_current_setpoint`: after the PUT request succeeds, the same
payload is applied locally via `thermostat.update_from_dict` — no fetch.
The embedding returns the locally merged thermostat record. -/
def set_current_setpoint (thermostat : ThermostatInfo) (temperature : ℚ)
    (now : DT) : Except String ThermostatInfo :=
  thermostat.update_from_dict (setpointPayload temperature) now

/-- Re-encode a `DT` to whole milliseconds since the epoch. -/
def dtToMillis (d : DT) : ℤ := d.sec * 1000 + ((d.micro : ℤ) / 1000)

/-- A concrete agreement used as a test fixture: id `"A1"`, display name
`"Home"` (the fixture of the spec's activation scenario). -/
def agreementHome : Agreement :=
  { emptyAgreement with
    agreement_id := Option.some "A1",
    display_common_name := Option.some "Home" }

/-! ## Theorems for the claims -/

/-- `ratFloor` agrees with the mathematical floor. -/
lemma ratFloor_eq_floor (q : ℚ) : ratFloor q = ⌊q⌋ := by
  rw [ratFloor, Int.fdiv_eq_ediv _ (by positivity), ← Rat.floor_def]

/-- Reduction of a successful bind in the `Except` monad. -/
lemma ok_bind {ε α β : Type} (a : α) (f : α → Except ε β) :
    (Except.ok (ε := ε) a >>= f) = f a := rfl

/-- With all three criteria `None`, the activation matching test accepts
exactly the agreements whose `agreement_id` or `display_common_name` is
itself `None`. -/
lemma agreementMatches_null (a : Agreement) :
    agreementMatches a Option.none Option.none Option.none
      = (a.agreement_id.isNone || a.display_common_name.isNone) := by
  cases h1 : a.agreement_id <;> cases h2 : a.display_common_name <;>
    simp [agreementMatches, h1, h2]

/-- C1: the claim that every update method leaves a field unchanged whenever
its wire key is absent fails on the code.  Evaluating the code at the failing
inputs: a `ThermostatInfo` whose `next_time` is a datetime and whose
`next_state` is `5`, updated with the empty payload, ends with
`next_time = 5` (the source passes `self.next_state` as the value to keep for
`nextTime`); and a `PowerUsage` updated with a payload containing only
`meterReading` ends with `meter_produced_high` equal to the freshly converted
`meter_high` instead of its own previous value (the source passes
`self.meter_high` as the value to keep for `meterReadingProdu`). -/
theorem update_field_preservation_fails_next_time :
    ((({ mkThermostatInfo ⟨0, 0⟩ with
          next_time := PyVal.dt ⟨100, 0⟩,
          next_state := PyVal.int 5 } : ThermostatInfo).update_from_dict
        emptyThermoPayload ⟨7, 0⟩).map ThermostatInfo.next_time
      = Except.ok (PyVal.int 5))
    ∧ PyVal.int 5 ≠ PyVal.dt ⟨100, 0⟩
    ∧ ((({ mkPowerUsage ⟨0, 0⟩ with
            meter_high := PyVal.float 1,
            meter_produced_high := PyVal.float 9 } : PowerUsage).update_from_dict
          { emptyPowerPayload with meterReading := Option.some (PyVal.int 2000) }
          ⟨7, 0⟩).map PowerUsage.meter_produced_high
        = Except.ok (PyVal.float 2))
    ∧ PyVal.float 2 ≠ PyVal.float 9 := by
  have h3 : round2q (((2000 : ℤ) : ℚ) / 1000) = 2 := by
    norm_num [round2q, pyRound, ratFloor_eq_floor]
  refine ⟨by decide, by decide, ?_, by decide⟩
  rw [← h3]; rfl

/-- C2 (counterexample): the 3-attempt connectivity policy does **not**
exclude rate-limit failures.  `ToonRateLimitError` derives from
`ToonConnectionError`, so the outer `backoff.on_exception(...,
ToonConnectionError, max_tries=3)` also catches what the inner rate-limit
wrapper re-raises: a request whose every underlying attempt yields HTTP 429
is invoked 18 times (3 outer × 6 inner attempts), not the claimed cap of 6,
before the `ToonRateLimitError` surfaces. -/
theorem rate_limit_retry_counterexample :
    requestWithRetries (α := String) (fun _ => classify_response 429 "") =
      (Except.error
        (ToonExc.rateLimitError "Rate limit error has occurred with the Quby ToonAPI"),
       18)
    ∧ isToonConnectionError
        (ToonExc.rateLimitError "Rate limit error has occurred with the Quby ToonAPI")
      = true
    ∧ (18 : ℕ) ≠ 6 := by
  refine ⟨by decide, by decide, by decide⟩

/-- C2 (amended): a persistently failing plain connectivity request is
attempted exactly 3 times and surfaces its `ToonConnectionError`; a
persistently rate-limited request is retried by *both* nested policies — 6
attempts per outer pass, 3 outer passes, 18 underlying attempts in all —
because `ToonRateLimitError` is a subclass of `ToonConnectionError`, and it
still surfaces as a `ToonRateLimitError`, distinct from a plain connection
error; a non-connectivity `ToonError` is not retried at all; the rate-limit
policy's parameters are base 60 and 6 attempts per pass, the connectivity
policy's are base 2 and 3 passes. -/
theorem retry_policy_behavior (msg : String) :
    requestWithRetries (α := Unit) (fun _ => Except.error (ToonExc.connectionError msg))
      = (Except.error (ToonExc.connectionError msg), 3)
    ∧ requestWithRetries (α := Unit) (fun _ => Except.error (ToonExc.rateLimitError msg))
      = (Except.error (ToonExc.rateLimitError msg), 18)
    ∧ requestWithRetries (α := Unit) (fun _ => Except.error (ToonExc.toonError msg))
      = (Except.error (ToonExc.toonError msg), 1)
    ∧ isToonConnectionError (ToonExc.rateLimitError msg) = true
    ∧ isToonRateLimitError (ToonExc.connectionError msg) = false
    ∧ rateLimitPolicy.base = 60 ∧ rateLimitPolicy.max_tries = 6
    ∧ connectionPolicy.base = 2 ∧ connectionPolicy.max_tries = 3 :=
  ⟨rfl, rfl, rfl, rfl, rfl, rfl, rfl, rfl, rfl⟩

/-- C2 (amended, witness): the connectivity cap of 3 attempts at a concrete
persistently failing stream. -/
theorem retry_policy_behavior_witness :
    requestWithRetries (α := Unit) (fun _ => Except.error (ToonExc.connectionError "io"))
      = (Except.error (ToonExc.connectionError "io"), 3) :=
  (retry_policy_behavior "io").1

/-- C3: the claim that every `Status` owns fresh record instances fails on
the code.  Evaluating the code at the failing input: two `Status` objects
constructed for two different agreements resolve all four record attributes
to the *same* class-level objects (the records are class attributes of
`Status`, created once at import time; `__init__` assigns only `agreement`),
so applying `update_from_dict` to the thermostat of one `Status` changes the
`current_setpoint` readable through the other. -/
theorem status_records_shared_across_instances :
    (Status.make emptyAgreement).thermostat_ref
        = (Status.make { emptyAgreement with agreement_id := Option.some "B" }).thermostat_ref
    ∧ (Status.make emptyAgreement).power_usage_ref
        = (Status.make { emptyAgreement with agreement_id := Option.some "B" }).power_usage_ref
    ∧ (Status.make emptyAgreement).gas_usage_ref
        = (Status.make { emptyAgreement with agreement_id := Option.some "B" }).gas_usage_ref
    ∧ (Status.make emptyAgreement).water_usage_ref
        = (Status.make { emptyAgreement with agreement_id := Option.some "B" }).water_usage_ref
    ∧ (readThermostat (importHeap ⟨0, 0⟩)
         (Status.make { emptyAgreement with agreement_id := Option.some "B" })).current_setpoint
        = PyVal.none
    ∧ (updateThermostatVia (importHeap ⟨0, 0⟩) (Status.make emptyAgreement)
         { emptyThermoPayload with currentSetpoint := Option.some (PyVal.int 2000) }
         ⟨7, 0⟩).map
        (fun h => (readThermostat h
          (Status.make { emptyAgreement with agreement_id := Option.some "B" })).current_setpoint)
        = Except.ok (PyVal.float 20) := by
  have h20 : ((2000 : ℤ) : ℚ) / 100 = 20 := by norm_num
  refine ⟨rfl, rfl, rfl, rfl, rfl, ?_⟩
  rw [← h20]; rfl

/-- C4: the claim that every update method sets `last_updated`
unconditionally fails on the code for `GasUsage` and `WaterUsage`.
Evaluating the code at the failing input: a fresh `GasUsage` (import-time
`last_updated` = time 3) updated with the empty payload at time 9 still has
`last_updated` = time 3 — the method's final line assigns the misspelled
attribute `last_update` instead — and likewise for `WaterUsage`; by
contrast `ThermostatInfo` does set `last_updated` to the current time, and
the display-timestamp key is honoured (a `GasUsage` payload carrying
`lastUpdatedFromDisplay = 1500` sets `last_updated_from_display` to the
converted datetime). -/
theorem gas_water_last_updated_not_refreshed :
    ((mkGasUsage ⟨3, 0⟩).update_from_dict emptyGasPayload ⟨9, 0⟩).map
        GasUsage.last_updated = Except.ok (PyVal.dt ⟨3, 0⟩)
    ∧ ((mkGasUsage ⟨3, 0⟩).update_from_dict emptyGasPayload ⟨9, 0⟩).map
        GasUsage.last_update = Except.ok (Option.some ⟨9, 0⟩)
    ∧ ((mkWaterUsage ⟨3, 0⟩).update_from_dict emptyWaterPayload ⟨9, 0⟩).map
        WaterUsage.last_updated = Except.ok (PyVal.dt ⟨3, 0⟩)
    ∧ ((mkWaterUsage ⟨3, 0⟩).update_from_dict emptyWaterPayload ⟨9, 0⟩).map
        WaterUsage.last_update = Except.ok (Option.some ⟨9, 0⟩)
    ∧ (⟨3, 0⟩ : DT) ≠ ⟨9, 0⟩
    ∧ ((mkThermostatInfo ⟨3, 0⟩).update_from_dict emptyThermoPayload ⟨9, 0⟩).map
        ThermostatInfo.last_updated = Except.ok (PyVal.dt ⟨9, 0⟩)
    ∧ ((mkGasUsage ⟨3, 0⟩).update_from_dict
        { emptyGasPayload with lastUpdatedFromDisplay := Option.some (PyVal.int 1500) }
        ⟨9, 0⟩).map GasUsage.last_updated_from_display
        = Except.ok (PyVal.dt ⟨1, 500000⟩) := by
  refine ⟨by decide, by decide, by decide, by decide, by decide, by decide, by decide⟩

/-- C5: with the agreements list known, `activate_agreement` raises the
generic `ToonError` — which is not a connection error — on an empty cached
list; raises the "agreement not found" `ToonError` when no cached entry
matches any of the three criteria; and on a match returns the first matching
agreement, a fresh `Status` bound to it, and records its id (and display
name) as active. -/
theorem activate_agreement_spec :
    (∀ (idC dcnC : Option String) (agC : Option Agreement),
        activate_agreement [] idC dcnC agC
          = Except.error (ToonExc.toonError "No agreements found on linked account")
        ∧ isToonConnectionError
            (ToonExc.toonError "No agreements found on linked account") = false)
    ∧ (∀ (ags : List Agreement) (idC dcnC : Option String) (agC : Option Agreement),
        ags ≠ [] →
        ags.find? (fun k => agreementMatches k idC dcnC agC) = Option.none →
        activate_agreement ags idC dcnC agC
          = Except.error
              (ToonExc.toonError "Agreement could not be found on the linked account"))
    ∧ (∀ (ags : List Agreement) (idC dcnC : Option String) (agC : Option Agreement)
        (k : Agreement),
        ags.find? (fun a => agreementMatches a idC dcnC agC) = Option.some k →
        activate_agreement ags idC dcnC agC
          = Except.ok ⟨k, Status.make k, k.agreement_id, k.display_common_name⟩) := by
  refine ⟨fun idC dcnC agC => ⟨rfl, rfl⟩, ?_, ?_⟩
  · intro ags idC dcnC agC hne hfind
    cases ags with
    | nil => exact absurd rfl hne
    | cons a t => simp [activate_agreement, hfind]
  · intro ags idC dcnC agC k hfind
    cases ags with
    | nil => simp at hfind
    | cons a t => simp [activate_agreement, hfind]

/-- C5 (witness): on the single-agreement list with id `"A1"`, activating by
id `"A1"` succeeds with a fresh `Status` bound to that agreement, and
activating by the unknown id `"ZZ"` fails with the "agreement not found"
error. -/
theorem activate_agreement_spec_witness :
    activate_agreement [agreementHome] (Option.some "A1") Option.none Option.none
      = Except.ok ⟨agreementHome, Status.make agreementHome,
          agreementHome.agreement_id, agreementHome.display_common_name⟩
    ∧ activate_agreement [agreementHome] (Option.some "ZZ") Option.none Option.none
      = Except.error
          (ToonExc.toonError "Agreement could not be found on the linked account") :=
  ⟨activate_agreement_spec.2.2 [agreementHome] (Option.some "A1") Option.none
      Option.none agreementHome (by decide),
   activate_agreement_spec.2.1 [agreementHome] (Option.some "ZZ") Option.none
      Option.none (by decide) (by decide)⟩

/-- C6: for every temperature `t`, `set_current_setpoint t` sends a payload
whose `currentSetpoint` is `round(t * 100)` and applies that same payload to
the local thermostat record, leaving `current_setpoint = round(t * 100) / 100`
with no further fetch; in particular `round(21.5 * 100) = 2150` and
`2150 / 100 = 21.5`. -/
theorem set_current_setpoint_spec (th : ThermostatInfo) (t : ℚ) (now : DT) :
    (setpointPayload t).currentSetpoint = Option.some (PyVal.int (pyRound (t * 100)))
    ∧ (set_current_setpoint th t now).map ThermostatInfo.current_setpoint
        = Except.ok (PyVal.float ((pyRound (t * 100) : ℚ) / 100))
    ∧ pyRound ((215 : ℚ) / 10 * 100) = 2150
    ∧ ((2150 : ℤ) : ℚ) / 100 = (215 : ℚ) / 10 := by
  refine ⟨rfl, rfl, by norm_num [pyRound, ratFloor_eq_floor], by norm_num⟩

/-- C6 (witness): the setpoint scenario at the concrete temperature 21.5 on
a fresh thermostat record. -/
theorem set_current_setpoint_spec_witness :
    (set_current_setpoint (mkThermostatInfo ⟨0, 0⟩) ((215 : ℚ) / 10) ⟨7, 0⟩).map
        ThermostatInfo.current_setpoint
      = Except.ok (PyVal.float ((pyRound ((215 : ℚ) / 10 * 100) : ℚ) / 100)) :=
  (set_current_setpoint_spec (mkThermostatInfo ⟨0, 0⟩) ((215 : ℚ) / 10) ⟨7, 0⟩).2.1

/-- C7: for every integer wire timestamp `t` (milliseconds since the epoch)
in the domain accepted by `utcfromtimestamp` — which includes all values
above `2^31` up to nearly `2^48` — `convert_datetime t` produces a datetime
whose microsecond component is exactly `(t % 1000) * 1000` (the sub-second
remainder, preserved exactly by integer arithmetic) and which re-encodes to
the same millisecond `t`. -/
theorem convert_datetime_roundtrip (t : ℤ)
    (h1 : MIN_TS_SEC ≤ Int.ediv t 1000) (h2 : Int.ediv t 1000 ≤ MAX_TS_SEC) :
    convert_datetime (PyVal.int t)
      = Except.ok (PyVal.dt ⟨Int.ediv t 1000, (Int.emod t 1000).toNat * 1000⟩)
    ∧ dtToMillis ⟨Int.ediv t 1000, (Int.emod t 1000).toNat * 1000⟩ = t := by
  constructor
  · simp [convert_datetime, h1, h2]
  · have hnn : 0 ≤ Int.emod t 1000 := Int.emod_nonneg t (by norm_num)
    simp only [dtToMillis]
    push_cast [Int.toNat_of_nonneg hnn]
    rw [Int.mul_ediv_cancel _ (by norm_num : (1000 : ℤ) ≠ 0)]
    show t / 1000 * 1000 + t % 1000 = t
    omega

/-- C7 (witness): the round-trip at the concrete timestamp `2^32`, a value
above `2^31`. -/
theorem convert_datetime_roundtrip_witness :
    convert_datetime (PyVal.int (2 ^ 32))
      = Except.ok
          (PyVal.dt ⟨Int.ediv (2 ^ 32) 1000, (Int.emod (2 ^ 32) 1000).toNat * 1000⟩)
    ∧ dtToMillis ⟨Int.ediv (2 ^ 32) 1000, (Int.emod (2 ^ 32) 1000).toNat * 1000⟩
        = 2 ^ 32
    ∧ (2 ^ 31 : ℤ) < 2 ^ 32 :=
  ⟨(convert_datetime_roundtrip (2 ^ 32) (by decide) (by decide)).1,
   (convert_datetime_roundtrip (2 ^ 32) (by decide) (by decide)).2, by decide⟩

/-- C8 (counterexample): not every converter returns unknown on a null
input — `convert_negative_none None` evaluates `None < 0` and
`convert_datetime None` evaluates `None // 1000.0`, both raising
`TypeError`. -/
theorem converters_null_counterexample :
    convert_negative_none PyVal.none = Except.error "TypeError"
    ∧ convert_datetime PyVal.none = Except.error "TypeError" := ⟨rfl, rfl⟩

/-- C8 (amended): the temperature, boolean, kWh, cm³, m³ and L/min
converters return unknown (`None`) on a null input; the negative-sentinel
and timestamp converters instead raise `TypeError` on null.  The record
update methods never pass null to a converter — `process_data` returns the
current value for an absent or null key without calling any conversion —
but the aggregate `Status.update_from_dict` applies `convert_datetime`
directly to a present `lastUpdateFromDisplay` or `serverTime` value with no
null guard, so a present-but-null value there does raise `TypeError`. -/
theorem converters_null_behavior :
    convert_temperature PyVal.none = Except.ok PyVal.none
    ∧ convert_boolean PyVal.none = Except.ok PyVal.none
    ∧ convert_kwh PyVal.none = Except.ok PyVal.none
    ∧ convert_cm3 PyVal.none = Except.ok PyVal.none
    ∧ convert_m3 PyVal.none = Except.ok PyVal.none
    ∧ convert_lmin PyVal.none = Except.ok PyVal.none
    ∧ convert_negative_none PyVal.none = Except.error "TypeError"
    ∧ convert_datetime PyVal.none = Except.error "TypeError"
    ∧ (∀ (cur : PyVal) (conv : PyVal → Except String PyVal),
        process_data (Option.some PyVal.none) cur conv = Except.ok cur)
    ∧ (∀ (cur : PyVal) (conv : PyVal → Except String PyVal),
        process_data Option.none cur conv = Except.ok cur)
    ∧ Status.update_from_dict (importHeap ⟨0, 0⟩) (Status.make emptyAgreement)
        (mkStatusFields ⟨0, 0⟩)
        { emptyStatusPayload with serverTime := Option.some PyVal.none } ⟨7, 0⟩
        = Except.error "TypeError"
    ∧ Status.update_from_dict (importHeap ⟨0, 0⟩) (Status.make emptyAgreement)
        (mkStatusFields ⟨0, 0⟩)
        { emptyStatusPayload with lastUpdateFromDisplay := Option.some PyVal.none }
        ⟨7, 0⟩
        = Except.error "TypeError" :=
  ⟨rfl, rfl, rfl, rfl, rfl, rfl, rfl, rfl, fun _ _ => rfl, fun _ _ => rfl, rfl, rfl⟩

/-- C9 (counterexample): with `day_high_usage = 5.0`, `day_low_usage = 0.0`
(so `day_usage = 5.0`) and `day_produced_solar = 2.0`, the code's
`day_to_grid_usage` is `0.0`, while the claimed formula
`max(0, round(day_usage − day_produced_solar, 2))` gives `3`. -/
theorem day_to_grid_usage_counterexample :
    ({ mkPowerUsage ⟨0, 0⟩ with
        day_high_usage := PyVal.float 5,
        day_low_usage := PyVal.float 0,
        day_produced_solar := PyVal.float 2 } : PowerUsage).day_to_grid_usage
      = Except.ok (PyVal.float 0)
    ∧ max (0 : ℚ) (round2q ((5 : ℚ) - 2)) = 3
    ∧ (0 : ℚ) ≠ 3 := by
  have h5 : round2q (5 : ℚ) = 5 := by
    norm_num [round2q, pyRound, ratFloor_eq_floor]
  have hY : round2q ((5 : ℚ) - 2) = 3 := by
    norm_num [round2q, pyRound, ratFloor_eq_floor]
  have hlt : ¬((3 : ℚ) < 0) := by norm_num
  refine ⟨?_, ?_, by norm_num⟩
  · simp only [PowerUsage.day_to_grid_usage, PowerUsage.day_usage]
    simp [ok_bind, pyAdd, pySub, pyMin, pyAbs, pyRound2, asNumE, asNum, h5, hY, hlt]
  · rw [hY]
    exact max_eq_right (by norm_num)

/-- C9 (amended): whenever `day_high_usage`, `day_low_usage` and
`day_produced_solar` are known floats, `day_to_grid_usage` equals
`max(0, −round(day_usage − day_produced_solar, 2))` — the non-negative
magnitude of how much produced solar exceeded usage, computed by the source
as `abs(min(0.0, round(day_usage − day_produced_solar, 2)))` — and it is
unknown when either operand is unknown: when either tariff register is
`None` (so the first operand `day_usage` is unknown), and when
`day_produced_solar` is `None`. -/
theorem day_to_grid_usage_spec (p : PowerUsage) (u l s : ℚ)
    (hu : p.day_high_usage = PyVal.float u) (hl : p.day_low_usage = PyVal.float l)
    (hs : p.day_produced_solar = PyVal.float s) :
    p.day_to_grid_usage
      = Except.ok (PyVal.float (max 0 (-(round2q (round2q (u + l) - s)))))
    ∧ (∀ q : PowerUsage,
        q.day_high_usage = PyVal.none ∨ q.day_low_usage = PyVal.none →
        q.day_usage = Except.ok PyVal.none
        ∧ q.day_to_grid_usage = Except.ok PyVal.none)
    ∧ (∀ (q : PowerUsage) (du : PyVal), q.day_usage = Except.ok du →
        q.day_produced_solar = PyVal.none →
        q.day_to_grid_usage = Except.ok PyVal.none) := by
  refine ⟨?_, ?_, ?_⟩
  · simp only [PowerUsage.day_to_grid_usage, PowerUsage.day_usage, hu, hl, hs]
    simp [ok_bind, pyAdd, pySub, pyMin, pyAbs, pyRound2, asNumE, asNum]
    rcases lt_or_le (round2q (round2q (u + l) - s)) 0 with hneg | hpos
    · simp [hneg, abs_of_neg hneg, max_eq_right (le_of_lt (neg_pos.mpr hneg))]
    · simp [not_lt.mpr hpos, max_eq_left (neg_nonpos.mpr hpos)]
  · intro q hq
    have hdu : q.day_usage = Except.ok PyVal.none := by
      rcases hq with h | h <;> simp [PowerUsage.day_usage, h]
    exact ⟨hdu, by simp [PowerUsage.day_to_grid_usage, hdu, ok_bind]⟩
  · intro q du hdu hsn
    simp [PowerUsage.day_to_grid_usage, hdu, hsn, ok_bind]

/-- C9 (amended, witness): the formula at the concrete record with
`day_high_usage = 1.0`, `day_low_usage = 2.0`, `day_produced_solar = 10.0`. -/
theorem day_to_grid_usage_spec_witness :
    ({ mkPowerUsage ⟨0, 0⟩ with
        day_high_usage := PyVal.float 1,
        day_low_usage := PyVal.float 2,
        day_produced_solar := PyVal.float 10 } : PowerUsage).day_to_grid_usage
      = Except.ok (PyVal.float (max 0 (-(round2q (round2q ((1 : ℚ) + 2) - 10))))) :=
  (day_to_grid_usage_spec _ 1 2 10 rfl rfl rfl).1

/-- C10: when the cached agreements list has an entry whose `agreement_id`
or `display_common_name` is itself null, calling `activate_agreement` with
no criteria at all does not fail with "agreement not found": it activates
the first such entry, because the loop compares the `None` criteria against
the agreements' optional fields by plain equality. -/
theorem activate_agreement_null_criteria (ags : List Agreement) (k : Agreement)
    (h : ags.find? (fun a => a.agreement_id.isNone || a.display_common_name.isNone)
      = Option.some k) :
    activate_agreement ags Option.none Option.none Option.none
      = Except.ok ⟨k, Status.make k, k.agreement_id, k.display_common_name⟩ := by
  cases ags with
  | nil => simp at h
  | cons a t =>
      simp only [activate_agreement, List.isEmpty_cons, agreementMatches_null, h,
        Bool.false_eq_true, if_false]

/-- C10 (witness): with a list holding one fully identified agreement
followed by one with all fields null, the criteria-less call activates the
all-null agreement. -/
theorem activate_agreement_null_criteria_witness :
    activate_agreement [agreementHome, emptyAgreement] Option.none Option.none
        Option.none
      = Except.ok ⟨emptyAgreement, Status.make emptyAgreement,
          emptyAgreement.agreement_id, emptyAgreement.display_common_name⟩ :=
  activate_agreement_null_criteria [agreementHome, emptyAgreement] emptyAgreement
    (by decide)

end ToonApi
